import Mathlib

/-!
Shallow embedding of the dental-clinic appointment backend
(src/backend/index.js, with the deployment variant src/backend/api/index.js
where the two differ).  The Mongo collections become Lean lists held in a
`DB` record; each Express route handler becomes a pure function from the
request body and the current `DB` to an HTTP-style response, paired with
the successor `DB` when the handler writes.  `findOne` / `findById` become
`List.find?`, `insertMany` / `save` of a new document append to the list,
and a mongoose document `save` after a field assignment replaces the first
matching element.  Request-body fields are `Option String` (`none` models
an absent JSON field) and the JS truthiness test `!x` on them is `falsy`.
bcrypt is modelled deterministically: `bcryptHash pw` prefixes a fixed
salt header (the source always calls `bcrypt.hash(password, 10)`), and
`bcryptCompare pw h` succeeds exactly when `h` is the hash of `pw`.
`Date(date).toLocaleDateString` weekday derivation is computed for
ISO `YYYY-MM-DD` dates (UTC) via days-since-epoch; unparsable dates give
the JS string `"Invalid Date"`.  The model clock `DB.now` stands for
`Date.now`; it ticks on each appointment insert, so creation timestamps
record creation order.
-/

namespace Dental

/-- A user document (`userSchema`): name, email, password (stored hashed). -/
structure User where
  name : String
  email : String
  password : String
deriving Repr, DecidableEq

/-- One availability window of a doctor (`doctorSchema.availability` entry). -/
structure Slot where
  day : String
  startTime : String
  endTime : String
deriving Repr, DecidableEq

/-- A doctor document (`doctorSchema`); `id` models the Mongo `_id`. -/
structure Doctor where
  id : String
  name : String
  specialization : String
  service : String
  availability : List Slot
deriving Repr, DecidableEq

/-- An appointment document (`appointmentSchema`); `createdAt` is the model
clock value at insertion. -/
structure Appointment where
  doctorId : String
  doctorName : String
  service : String
  userName : String
  userEmail : String
  date : String
  time : String
  createdAt : Nat
deriving Repr, DecidableEq

/-- The database state: the three collections plus the model clock. -/
structure DB where
  users : List User
  doctors : List Doctor
  appointments : List Appointment
  now : Nat
deriving Repr, DecidableEq

/-- An HTTP response as the handlers build it: status code and message. -/
structure Response where
  status : Nat
  message : String
deriving Repr, DecidableEq

/-- The sign-in response additionally carries the user payload
`{ name, email }` on success (and only those two fields). -/
structure SigninResponse where
  status : Nat
  message : String
  user : Option (String × String)
deriving Repr, DecidableEq

/-- JS truthiness test `!x` on a request-body string field: absent (`none`)
and the empty string are falsy. -/
def falsy : Option String → Bool
  | none => true
  | some s => s == ""

/-- Model of `bcrypt.hash(pw, 10)`: a fixed salt header (salt rounds are
the literal 10 in the source) followed by a digest determined by `pw`.
Deterministic stand-in for the salted hash; structurally distinct from the
plaintext. -/
def bcryptHash (pw : String) : String :=
  "$2b$10$" ++ pw

/-- Model of `bcrypt.compare(pw, h)`: succeeds exactly when `h` is the
stored hash of `pw`. -/
def bcryptCompare (pw h : String) : Bool :=
  h == bcryptHash pw

/-- Lexicographic strict comparison of character lists by code unit: the
JS `<` on strings. -/
def lexLt : List Char → List Char → Bool
  | [], [] => false
  | [], _ :: _ => true
  | _ :: _, [] => false
  | a :: as, b :: bs =>
      if a.toNat < b.toNat then true
      else if b.toNat < a.toNat then false
      else lexLt as bs

/-- The JS `<=` on strings: `a <= b` holds when `b < a` does not. -/
def strLe (a b : String) : Bool :=
  !(lexLt b.data a.data)

/-- Gregorian leap-year test. -/
def isLeap (y : Nat) : Bool :=
  (y % 4 == 0 && y % 100 != 0) || y % 400 == 0

/-- Day count of the months of a year. -/
def monthLengths (leap : Bool) : List Nat :=
  [31, if leap then 29 else 28, 31, 30, 31, 30, 31, 31, 30, 31, 30, 31]

/-- Days in year `y` strictly before month `m` (1-based). -/
def daysBeforeMonth (y m : Nat) : Nat :=
  ((monthLengths (isLeap y)).take (m - 1)).foldl (· + ·) 0

/-- Days since 1970-01-01 of the civil date `y-m-d` (for `y ≥ 1970`). -/
def daysFromCivil (y m d : Nat) : Nat :=
  (List.range (y - 1970)).foldl
    (fun acc i => acc + (if isLeap (1970 + i) then 366 else 365)) 0
  + daysBeforeMonth y m + (d - 1)

/-- Weekday names as `toLocaleDateString("en-US", \x7b weekday: "short" \x7d)`
prints them; index 0 is Sunday. -/
def weekdayNames : List String :=
  ["Sun", "Mon", "Tue", "Wed", "Thu", "Fri", "Sat"]

/-- Split a character list at dash characters: the `.splitOn "-"` used to
read the date components. -/
def splitDash : List Char → List (List Char)
  | [] => [[]]
  | c :: cs =>
      let r := splitDash cs
      if c = '-' then [] :: r
      else
        match r with
        | [] => [[c]]
        | g :: gs => (c :: g) :: gs

/-- Read a non-empty all-digit character group as a number. -/
def natOfDigitsAux : List Char → Nat → Option Nat
  | [], acc => some acc
  | c :: cs, acc =>
      if c.isDigit then natOfDigitsAux cs (acc * 10 + (c.toNat - 48)) else none

/-- Numeric value of a date component; `none` on an empty or non-digit
group. -/
def natOfDigits? : List Char → Option Nat
  | [] => none
  | cs => natOfDigitsAux cs 0

/-- `new Date(date).toLocaleDateString("en-US", \x7b weekday: "short" \x7d)`
for an ISO `YYYY-MM-DD` string (UTC, year at least 1970): parse the three
dash-separated components, validate their ranges, and map days-since-epoch
to the weekday (1970-01-01 was a Thursday, index 4).  A date that does not
parse yields the JS rendering `"Invalid Date"`. -/
def weekdayShort (date : String) : String :=
  match (splitDash date.data).map natOfDigits? with
  | [some y, some m, some d] =>
      if 1970 ≤ y ∧ 1 ≤ m ∧ m ≤ 12 ∧ 1 ≤ d ∧ d ≤ (monthLengths (isLeap y)).getD (m - 1) 0 then
        weekdayNames.getD ((4 + daysFromCivil y m d) % 7) "Invalid Date"
      else "Invalid Date"
  | _ => "Invalid Date"

/-- `POST /register` (identical in both variants): reject with 409 when a
user with the email exists, otherwise store the user with the hashed
password and answer 201. -/
def register (db : DB) (name email password : String) : Response × DB :=
  match db.users.find? (fun u => u.email == email) with
  | some _ => ({ status := 409, message := "User already exists" }, db)
  | none =>
      let hashedPassword := bcryptHash password
      let newUser : User := { name := name, email := email, password := hashedPassword }
      ({ status := 201, message := "User registered successfully" },
       { db with users := db.users ++ [newUser] })

/-- `POST /signin` (identical in both variants): 401 when the email is
unknown or the password does not match the stored hash; otherwise the
stored name and email are returned.  Read-only: no successor state. -/
def signin (db : DB) (email password : String) : SigninResponse :=
  match db.users.find? (fun u => u.email == email) with
  | none => { status := 401, message := "Invalid email or password", user := none }
  | some user =>
      if bcryptCompare password user.password then
        { status := 200, message := "Sign-in successful",
          user := some (user.name, user.email) }
      else
        { status := 401, message := "Invalid email or password", user := none }

/-- Replace the first list element satisfying `p` by its image under `f`:
models loading one mongoose document, mutating a field and calling
`save()`. -/
def updateFirst (p : User → Bool) (f : User → User) : List User → List User
  | [] => []
  | u :: us => if p u then f u :: us else u :: updateFirst p f us

/-- `POST /resetpassword` in src/backend/index.js: explicit 400 when email
or password is missing, 404 when the email is unknown, otherwise overwrite
the stored hash of that user. -/
def resetPassword (db : DB) (email password : Option String) : Response × DB :=
  if falsy email || falsy password then
    ({ status := 400, message := "Email and password are required" }, db)
  else
    match db.users.find? (fun u => some u.email == email) with
    | none => ({ status := 404, message := "User not found" }, db)
    | some _ =>
        let hashedPassword := bcryptHash (password.getD "")
        ({ status := 200, message := "Password reset successfully" },
         { db with users := updateFirst (fun u => some u.email == email)
                     (fun u => { u with password := hashedPassword }) db.users })

/-- The mongoose filter of `User.findOne(\x7b email \x7d)` in the api
reset handler: mongoose strips undefined filter values, so a missing
email turns the query into `findOne(\x7b\x7d)`, which matches every user
(the first is returned); a present email matches on equality. -/
def apiMatch (email : Option String) (u : User) : Bool :=
  match email with
  | none => true
  | some e => u.email == e

/-- `POST /resetpassword` in the src/backend/api/index.js variant: no
missing-fields 400 guard.  The lookup uses `apiMatch` (a missing email
matches the first user).  When a user is found and the password is
missing, `bcrypt.hash(undefined, 10)` throws and the catch answers 500
with no write; otherwise the found (first matching) user has its stored
hash overwritten. -/
def resetPasswordApi (db : DB) (email password : Option String) : Response × DB :=
  match db.users.find? (apiMatch email) with
  | none => ({ status := 404, message := "User not found" }, db)
  | some _ =>
      match password with
      | none => ({ status := 500, message := "Server error" }, db)
      | some p =>
          let hashedPassword := bcryptHash p
          ({ status := 200, message := "Password reset successfully" },
           { db with users := updateFirst (apiMatch email)
                       (fun u => { u with password := hashedPassword }) db.users })

/-- `POST /appointment` (src/backend/index.js; the api variant differs only
in message wording): required-fields guard, doctor lookup, weekday match
over the availability list, lexical time-window check, duplicate-slot
check, then insert with `createdAt = Date.now`. -/
def bookAppointment (db : DB)
    (doctorId doctorName service userName userEmail date time : Option String) :
    Response × DB :=
  if falsy doctorId || falsy userName || falsy userEmail || falsy date || falsy time then
    ({ status := 400, message := "Missing required fields" }, db)
  else
    match db.doctors.find? (fun d => some d.id == doctorId) with
    | none => ({ status := 404, message := "Doctor not found" }, db)
    | some doctor =>
        let appointmentDay := weekdayShort (date.getD "")
        match doctor.availability.find? (fun slot => slot.day == appointmentDay) with
        | none =>
            ({ status := 400,
               message := "Doctor is not available on " ++ appointmentDay }, db)
        | some availableSlot =>
            let isTimeValid :=
              strLe availableSlot.startTime (time.getD "")
                && strLe (time.getD "") availableSlot.endTime
            if !isTimeValid then
              ({ status := 400,
                 message := "Doctor is available on " ++ appointmentDay
                   ++ " only between " ++ availableSlot.startTime
                   ++ " and " ++ availableSlot.endTime }, db)
            else
              match db.appointments.find? (fun a =>
                  some a.doctorId == doctorId && some a.date == date
                    && some a.time == time) with
              | some _ =>
                  ({ status := 409,
                     message := "Doctor already has an appointment at this time" }, db)
              | none =>
                  let appointment : Appointment :=
                    { doctorId := doctorId.getD "", doctorName := doctorName.getD "",
                      service := service.getD "", userName := userName.getD "",
                      userEmail := userEmail.getD "", date := date.getD "",
                      time := time.getD "", createdAt := db.now }
                  ({ status := 201, message := "Appointment booked successfully" },
                   { db with appointments := db.appointments ++ [appointment],
                             now := db.now + 1 })

/-- Descending order on creation timestamps, the sort key of
`Appointment.find().sort(\x7b createdAt: -1 \x7d)`. -/
def byCreatedDesc (a b : Appointment) : Prop :=
  b.createdAt ≤ a.createdAt

instance : DecidableRel byCreatedDesc := fun a b =>
  inferInstanceAs (Decidable (b.createdAt ≤ a.createdAt))

instance : IsTotal Appointment byCreatedDesc :=
  ⟨fun a b => (Nat.le_total b.createdAt a.createdAt).imp id id⟩

instance : IsTrans Appointment byCreatedDesc :=
  ⟨fun _ _ _ h1 h2 => Nat.le_trans h2 h1⟩

/-- `GET /appointments`: every stored appointment, sorted by `createdAt`
descending (most recent first). -/
def listAppointments (db : DB) : List Appointment :=
  List.insertionSort byCreatedDesc db.appointments

/-- The fixed doctor list inserted by `preloadDoctors` in
src/backend/index.js (model ids stand for the generated Mongo ids). -/
def seedDoctors : List Doctor :=
  [ { id := "doc1", name := "Dr. Anjali Nair", specialization := "Cosmetic Dentistry",
      service := "Cosmetic Dentistry",
      availability :=
        [ { day := "Mon", startTime := "10:00", endTime := "14:00" },
          { day := "Wed", startTime := "10:00", endTime := "14:00" },
          { day := "Fri", startTime := "10:00", endTime := "14:00" } ] },
    { id := "doc2", name := "Dr. Ravi Menon", specialization := "Orthodontics",
      service := "Orthodontics",
      availability :=
        [ { day := "Tue", startTime := "11:00", endTime := "16:00" },
          { day := "Thu", startTime := "11:00", endTime := "16:00" } ] },
    { id := "doc3", name := "Dr. Meera Thomas", specialization := "Pediatric Dentistry",
      service := "Cosmetic Dentistry",
      availability :=
        [ { day := "Mon", startTime := "14:00", endTime := "18:00" },
          { day := "Tue", startTime := "14:00", endTime := "18:00" },
          { day := "Wed", startTime := "14:00", endTime := "18:00" },
          { day := "Thu", startTime := "14:00", endTime := "18:00" },
          { day := "Fri", startTime := "14:00", endTime := "18:00" } ] },
    { id := "doc4", name := "Dr. Arun Das", specialization := "Dental Implants",
      service := "Dental Implants",
      availability :=
        [ { day := "Sat", startTime := "09:00", endTime := "13:00" },
          { day := "Sun", startTime := "09:00", endTime := "13:00" } ] },
    { id := "doc5", name := "Dr. Sneha Pillai", specialization := "Endodontics",
      service := "Cosmetic Dentistry",
      availability :=
        [ { day := "Wed", startTime := "15:00", endTime := "18:00" },
          { day := "Fri", startTime := "15:00", endTime := "18:00" } ] } ]

/-- `preloadDoctors`: a no-op when the doctor collection is non-empty,
otherwise `insertMany` of the fixed list. -/
def preloadDoctors (db : DB) : DB :=
  if db.doctors.length > 0 then db
  else { db with doctors := db.doctors ++ seedDoctors }

end Dental

namespace Dental

/-! ### Helper lemmas about the booking chain -/

/-- Abbreviation for the required-fields guard of `POST /appointment`. -/
def missingFields (doctorId userName userEmail date time : Option String) : Bool :=
  falsy doctorId || falsy userName || falsy userEmail || falsy date || falsy time

/-- The appointment document the success branch inserts. -/
def mkAppointment (doctorId doctorName service userName userEmail date time : Option String)
    (now : Nat) : Appointment :=
  { doctorId := doctorId.getD "", doctorName := doctorName.getD "",
    service := service.getD "", userName := userName.getD "",
    userEmail := userEmail.getD "", date := date.getD "",
    time := time.getD "", createdAt := now }

theorem book_missing (db : DB) (did dn sv un ue dt tm : Option String)
    (h : missingFields did un ue dt tm = true) :
    bookAppointment db did dn sv un ue dt tm =
      ({ status := 400, message := "Missing required fields" }, db) := by
  unfold bookAppointment
  unfold missingFields at h
  rw [h]
  simp

theorem book_noDoctor (db : DB) (did dn sv un ue dt tm : Option String)
    (h : missingFields did un ue dt tm = false)
    (hd : db.doctors.find? (fun d => some d.id == did) = none) :
    bookAppointment db did dn sv un ue dt tm =
      ({ status := 404, message := "Doctor not found" }, db) := by
  unfold bookAppointment
  unfold missingFields at h
  rw [h, hd]
  simp

theorem book_noDay (db : DB) (did dn sv un ue dt tm : Option String) (doctor : Doctor)
    (h : missingFields did un ue dt tm = false)
    (hd : db.doctors.find? (fun d => some d.id == did) = some doctor)
    (hs : doctor.availability.find?
        (fun slot => slot.day == weekdayShort (dt.getD "")) = none) :
    bookAppointment db did dn sv un ue dt tm =
      ({ status := 400,
         message := "Doctor is not available on " ++ weekdayShort (dt.getD "") }, db) := by
  unfold bookAppointment
  unfold missingFields at h
  rw [h, hd]
  simp only [hs]
  simp

theorem book_badTime (db : DB) (did dn sv un ue dt tm : Option String)
    (doctor : Doctor) (slot : Slot)
    (h : missingFields did un ue dt tm = false)
    (hd : db.doctors.find? (fun d => some d.id == did) = some doctor)
    (hs : doctor.availability.find?
        (fun s => s.day == weekdayShort (dt.getD "")) = some slot)
    (ht : (strLe slot.startTime (tm.getD "") && strLe (tm.getD "") slot.endTime) = false) :
    bookAppointment db did dn sv un ue dt tm =
      ({ status := 400,
         message := "Doctor is available on " ++ weekdayShort (dt.getD "")
           ++ " only between " ++ slot.startTime ++ " and " ++ slot.endTime }, db) := by
  unfold bookAppointment
  unfold missingFields at h
  rw [h, hd]
  simp only [hs, ht]
  simp

theorem book_dup (db : DB) (did dn sv un ue dt tm : Option String)
    (doctor : Doctor) (slot : Slot) (a : Appointment)
    (h : missingFields did un ue dt tm = false)
    (hd : db.doctors.find? (fun d => some d.id == did) = some doctor)
    (hs : doctor.availability.find?
        (fun s => s.day == weekdayShort (dt.getD "")) = some slot)
    (ht : (strLe slot.startTime (tm.getD "") && strLe (tm.getD "") slot.endTime) = true)
    (he : db.appointments.find? (fun a =>
        some a.doctorId == did && some a.date == dt && some a.time == tm) = some a) :
    bookAppointment db did dn sv un ue dt tm =
      ({ status := 409, message := "Doctor already has an appointment at this time" }, db) := by
  unfold bookAppointment
  unfold missingFields at h
  rw [h, hd]
  simp only [hs, ht, he]
  simp

theorem book_ok (db : DB) (did dn sv un ue dt tm : Option String)
    (doctor : Doctor) (slot : Slot)
    (h : missingFields did un ue dt tm = false)
    (hd : db.doctors.find? (fun d => some d.id == did) = some doctor)
    (hs : doctor.availability.find?
        (fun s => s.day == weekdayShort (dt.getD "")) = some slot)
    (ht : (strLe slot.startTime (tm.getD "") && strLe (tm.getD "") slot.endTime) = true)
    (he : db.appointments.find? (fun a =>
        some a.doctorId == did && some a.date == dt && some a.time == tm) = none) :
    bookAppointment db did dn sv un ue dt tm =
      ({ status := 201, message := "Appointment booked successfully" },
       { db with
           appointments := db.appointments ++ [mkAppointment did dn sv un ue dt tm db.now],
           now := db.now + 1 }) := by
  unfold bookAppointment
  unfold missingFields at h
  rw [h, hd]
  simp only [hs, ht, he]
  simp [mkAppointment]

end Dental

namespace Dental

/-- Full case analysis of `POST /appointment`: every failure branch leaves
the state untouched, and the single success branch appends exactly the new
document (with `createdAt` the current clock) and ticks the clock, after
the duplicate-slot lookup came back empty. -/
theorem book_cases (db : DB) (did dn sv un ue dt tm : Option String) :
    ((bookAppointment db did dn sv un ue dt tm).1.status ≠ 201 ∧
     (bookAppointment db did dn sv un ue dt tm).2 = db) ∨
    ((bookAppointment db did dn sv un ue dt tm).1.status = 201 ∧
     missingFields did un ue dt tm = false ∧
     ∃ doctor slot,
       db.doctors.find? (fun d => some d.id == did) = some doctor ∧
       doctor.availability.find?
         (fun s => s.day == weekdayShort (dt.getD "")) = some slot ∧
       (strLe slot.startTime (tm.getD "") && strLe (tm.getD "") slot.endTime) = true ∧
       db.appointments.find? (fun a =>
         some a.doctorId == did && some a.date == dt && some a.time == tm) = none ∧
       (bookAppointment db did dn sv un ue dt tm).2 =
         { db with
             appointments := db.appointments ++ [mkAppointment did dn sv un ue dt tm db.now],
             now := db.now + 1 }) := by
  cases hmf : missingFields did un ue dt tm with
  | true =>
      left
      rw [book_missing db did dn sv un ue dt tm hmf]
      exact ⟨by simp, rfl⟩
  | false =>
      cases hd : db.doctors.find? (fun d => some d.id == did) with
      | none =>
          left
          rw [book_noDoctor db did dn sv un ue dt tm hmf hd]
          exact ⟨by simp, rfl⟩
      | some doctor =>
          cases hs : doctor.availability.find?
              (fun s => s.day == weekdayShort (dt.getD "")) with
          | none =>
              left
              rw [book_noDay db did dn sv un ue dt tm doctor hmf hd hs]
              exact ⟨by simp, rfl⟩
          | some slot =>
              cases ht : strLe slot.startTime (tm.getD "") && strLe (tm.getD "") slot.endTime with
              | true =>
                  cases he : db.appointments.find? (fun a =>
                      some a.doctorId == did && some a.date == dt && some a.time == tm) with
                  | some a =>
                      left
                      rw [book_dup db did dn sv un ue dt tm doctor slot a hmf hd hs ht he]
                      exact ⟨by simp, rfl⟩
                  | none =>
                      right
                      rw [book_ok db did dn sv un ue dt tm doctor slot hmf hd hs ht he]
                      exact ⟨rfl, rfl, doctor, slot, rfl, hs, ht, rfl, rfl⟩
              | false =>
                  left
                  rw [book_badTime db did dn sv un ue dt tm doctor slot hmf hd hs ht]
                  exact ⟨by simp, rfl⟩

end Dental

namespace Dental

/-- A concrete state for witnesses: fresh database after seeding. -/
def dbEx : DB := { users := [], doctors := seedDoctors, appointments := [], now := 0 }

/-- C3: BookAppointment validates in the fixed early-exit order
required-fields, doctor lookup, weekday match, time window, duplicate
slot: any missing required field gives 400 regardless of the rest of the
request; with all fields present an unknown doctorId gives 404 regardless
of date and time; then a doctor without a matching weekday window gives
400; a matching window with the time outside it gives 400; an occupied
slot gives 409; each failure leaving the state unchanged. -/
theorem claim_C3 (db : DB) (did dn sv un ue dt tm : Option String)
    (doctor : Doctor) (slot : Slot) (a : Appointment) :
    (missingFields did un ue dt tm = true →
      bookAppointment db did dn sv un ue dt tm =
        ({ status := 400, message := "Missing required fields" }, db)) ∧
    (missingFields did un ue dt tm = false →
      db.doctors.find? (fun d => some d.id == did) = none →
      bookAppointment db did dn sv un ue dt tm =
        ({ status := 404, message := "Doctor not found" }, db)) ∧
    (missingFields did un ue dt tm = false →
      db.doctors.find? (fun d => some d.id == did) = some doctor →
      doctor.availability.find?
        (fun s => s.day == weekdayShort (dt.getD "")) = none →
      bookAppointment db did dn sv un ue dt tm =
        ({ status := 400,
           message := "Doctor is not available on " ++ weekdayShort (dt.getD "") }, db)) ∧
    (missingFields did un ue dt tm = false →
      db.doctors.find? (fun d => some d.id == did) = some doctor →
      doctor.availability.find?
        (fun s => s.day == weekdayShort (dt.getD "")) = some slot →
      (strLe slot.startTime (tm.getD "") && strLe (tm.getD "") slot.endTime) = false →
      bookAppointment db did dn sv un ue dt tm =
        ({ status := 400,
           message := "Doctor is available on " ++ weekdayShort (dt.getD "")
             ++ " only between " ++ slot.startTime ++ " and " ++ slot.endTime }, db)) ∧
    (missingFields did un ue dt tm = false →
      db.doctors.find? (fun d => some d.id == did) = some doctor →
      doctor.availability.find?
        (fun s => s.day == weekdayShort (dt.getD "")) = some slot →
      (strLe slot.startTime (tm.getD "") && strLe (tm.getD "") slot.endTime) = true →
      db.appointments.find? (fun a =>
        some a.doctorId == did && some a.date == dt && some a.time == tm) = some a →
      bookAppointment db did dn sv un ue dt tm =
        ({ status := 409, message := "Doctor already has an appointment at this time" }, db)) :=
  ⟨book_missing db did dn sv un ue dt tm,
   book_noDoctor db did dn sv un ue dt tm,
   fun h hd hs => book_noDay db did dn sv un ue dt tm doctor h hd hs,
   fun h hd hs ht => book_badTime db did dn sv un ue dt tm doctor slot h hd hs ht,
   fun h hd hs ht he => book_dup db did dn sv un ue dt tm doctor slot a h hd hs ht he⟩

/-- Witness for C3 at concrete inputs: a request with a missing userName
is answered 400 even though doctor doc1 exists, and a complete request
with the unknown doctorId nope is answered 404 even though its date and
time are valid for doc1. -/
theorem claim_C3_witness :
    bookAppointment dbEx (some "doc1") none none none (some "a@b.c")
        (some "2025-01-06") (some "11:00") =
      ({ status := 400, message := "Missing required fields" }, dbEx) ∧
    bookAppointment dbEx (some "nope") none none (some "Al") (some "a@b.c")
        (some "2025-01-06") (some "11:00") =
      ({ status := 404, message := "Doctor not found" }, dbEx) :=
  ⟨(claim_C3 dbEx (some "doc1") none none none (some "a@b.c") (some "2025-01-06")
      (some "11:00") ⟨"", "", "", "", []⟩ ⟨"", "", ""⟩
      ⟨"", "", "", "", "", "", "", 0⟩).1 (by decide),
   ((claim_C3 dbEx (some "nope") none none (some "Al") (some "a@b.c") (some "2025-01-06")
      (some "11:00") ⟨"", "", "", "", []⟩ ⟨"", "", ""⟩
      ⟨"", "", "", "", "", "", "", 0⟩).2.1 (by decide) (by decide))⟩

/-- C10: every non-201 outcome of BookAppointment leaves the state (and in
particular the appointment collection) unchanged; the 201 outcome appends
exactly the one new record. -/
theorem claim_C10 (db : DB) (did dn sv un ue dt tm : Option String) :
    ((bookAppointment db did dn sv un ue dt tm).1.status ≠ 201 →
      (bookAppointment db did dn sv un ue dt tm).2 = db) ∧
    ((bookAppointment db did dn sv un ue dt tm).1.status = 201 →
      (bookAppointment db did dn sv un ue dt tm).2.appointments =
        db.appointments ++ [mkAppointment did dn sv un ue dt tm db.now]) := by
  rcases book_cases db did dn sv un ue dt tm with ⟨hne, hdb⟩ |
    ⟨h201, _, _, _, _, _, _, _, hdb⟩
  · exact ⟨fun _ => hdb, fun h => absurd h hne⟩
  · exact ⟨fun h => absurd h201 h, fun _ => by rw [hdb]⟩

/-- Witness for C10: the duplicate-409 outcome on a one-appointment state
leaves the state unchanged, and the 201 outcome on the fresh state appends
the booked record. -/
theorem claim_C10_witness :
    (bookAppointment
        { dbEx with appointments := [⟨"doc1", "", "", "Bo", "b@b.c", "2025-01-06", "11:00", 0⟩],
                    now := 1 }
        (some "doc1") none none (some "Al") (some "a@b.c")
        (some "2025-01-06") (some "11:00")).2 =
      { dbEx with appointments := [⟨"doc1", "", "", "Bo", "b@b.c", "2025-01-06", "11:00", 0⟩],
                  now := 1 } ∧
    (bookAppointment dbEx (some "doc1") none none (some "Al") (some "a@b.c")
        (some "2025-01-06") (some "11:00")).2.appointments =
      [⟨"doc1", "", "", "Al", "a@b.c", "2025-01-06", "11:00", 0⟩] :=
  ⟨(claim_C10 { dbEx with
        appointments := [⟨"doc1", "", "", "Bo", "b@b.c", "2025-01-06", "11:00", 0⟩], now := 1 }
      (some "doc1") none none (some "Al") (some "a@b.c")
      (some "2025-01-06") (some "11:00")).1 (by decide),
   (claim_C10 dbEx (some "doc1") none none (some "Al") (some "a@b.c")
      (some "2025-01-06") (some "11:00")).2 (by decide)⟩

end Dental

namespace Dental

/-- C2: with a matching-day availability window found, BookAppointment
answers 400 with the message naming the allowed window exactly when the
time string falls lexically outside the closed interval from startTime to
endTime; a time inside the closed interval passes this check and reaches
the duplicate-slot stage (answering 201 or 409). -/
theorem claim_C2 (db : DB) (did dn sv un ue dt tm : Option String)
    (doctor : Doctor) (slot : Slot)
    (hmf : missingFields did un ue dt tm = false)
    (hd : db.doctors.find? (fun d => some d.id == did) = some doctor)
    (hs : doctor.availability.find?
        (fun s => s.day == weekdayShort (dt.getD "")) = some slot) :
    ((bookAppointment db did dn sv un ue dt tm).1 =
        { status := 400,
          message := "Doctor is available on " ++ weekdayShort (dt.getD "")
            ++ " only between " ++ slot.startTime ++ " and " ++ slot.endTime } ↔
      (strLe slot.startTime (tm.getD "") && strLe (tm.getD "") slot.endTime) = false) ∧
    ((strLe slot.startTime (tm.getD "") && strLe (tm.getD "") slot.endTime) = true →
      (bookAppointment db did dn sv un ue dt tm).1.status = 201 ∨
      (bookAppointment db did dn sv un ue dt tm).1.status = 409) := by
  cases ht : strLe slot.startTime (tm.getD "") && strLe (tm.getD "") slot.endTime with
  | false =>
      rw [book_badTime db did dn sv un ue dt tm doctor slot hmf hd hs ht]
      exact ⟨⟨fun _ => rfl, fun _ => rfl⟩, fun h => nomatch h⟩
  | true =>
      cases he : db.appointments.find? (fun a =>
          some a.doctorId == did && some a.date == dt && some a.time == tm) with
      | some a =>
          rw [book_dup db did dn sv un ue dt tm doctor slot a hmf hd hs ht he]
          exact ⟨⟨fun h => absurd (congrArg Response.status h) (by simp),
                  fun h => nomatch h⟩,
                 fun _ => Or.inr rfl⟩
      | none =>
          rw [book_ok db did dn sv un ue dt tm doctor slot hmf hd hs ht he]
          exact ⟨⟨fun h => absurd (congrArg Response.status h) (by simp),
                  fun h => nomatch h⟩,
                 fun _ => Or.inl rfl⟩

/-- Witness for C2 on doctor doc1, available Mon 10:00-14:00, with the
Monday date 2025-01-06: time 09:00 is rejected with the window message,
and the times 11:00, 10:00 and 14:00 all pass the window check. -/
theorem claim_C2_witness :
    ((bookAppointment dbEx (some "doc1") none none (some "Al") (some "a@b.c")
        (some "2025-01-06") (some "09:00")).1 =
      { status := 400,
        message := "Doctor is available on Mon only between 10:00 and 14:00" }) ∧
    ((bookAppointment dbEx (some "doc1") none none (some "Al") (some "a@b.c")
        (some "2025-01-06") (some "11:00")).1.status = 201 ∨
     (bookAppointment dbEx (some "doc1") none none (some "Al") (some "a@b.c")
        (some "2025-01-06") (some "11:00")).1.status = 409) ∧
    ((bookAppointment dbEx (some "doc1") none none (some "Al") (some "a@b.c")
        (some "2025-01-06") (some "10:00")).1.status = 201 ∨
     (bookAppointment dbEx (some "doc1") none none (some "Al") (some "a@b.c")
        (some "2025-01-06") (some "10:00")).1.status = 409) ∧
    ((bookAppointment dbEx (some "doc1") none none (some "Al") (some "a@b.c")
        (some "2025-01-06") (some "14:00")).1.status = 201 ∨
     (bookAppointment dbEx (some "doc1") none none (some "Al") (some "a@b.c")
        (some "2025-01-06") (some "14:00")).1.status = 409) :=
  ⟨(claim_C2 dbEx (some "doc1") none none (some "Al") (some "a@b.c")
      (some "2025-01-06") (some "09:00")
      ⟨"doc1", "Dr. Anjali Nair", "Cosmetic Dentistry", "Cosmetic Dentistry",
        [⟨"Mon", "10:00", "14:00"⟩, ⟨"Wed", "10:00", "14:00"⟩, ⟨"Fri", "10:00", "14:00"⟩]⟩
      ⟨"Mon", "10:00", "14:00"⟩ (by decide) (by decide) (by decide)).1.mpr (by decide),
   (claim_C2 dbEx (some "doc1") none none (some "Al") (some "a@b.c")
      (some "2025-01-06") (some "11:00")
      ⟨"doc1", "Dr. Anjali Nair", "Cosmetic Dentistry", "Cosmetic Dentistry",
        [⟨"Mon", "10:00", "14:00"⟩, ⟨"Wed", "10:00", "14:00"⟩, ⟨"Fri", "10:00", "14:00"⟩]⟩
      ⟨"Mon", "10:00", "14:00"⟩ (by decide) (by decide) (by decide)).2 (by decide),
   (claim_C2 dbEx (some "doc1") none none (some "Al") (some "a@b.c")
      (some "2025-01-06") (some "10:00")
      ⟨"doc1", "Dr. Anjali Nair", "Cosmetic Dentistry", "Cosmetic Dentistry",
        [⟨"Mon", "10:00", "14:00"⟩, ⟨"Wed", "10:00", "14:00"⟩, ⟨"Fri", "10:00", "14:00"⟩]⟩
      ⟨"Mon", "10:00", "14:00"⟩ (by decide) (by decide) (by decide)).2 (by decide),
   (claim_C2 dbEx (some "doc1") none none (some "Al") (some "a@b.c")
      (some "2025-01-06") (some "14:00")
      ⟨"doc1", "Dr. Anjali Nair", "Cosmetic Dentistry", "Cosmetic Dentistry",
        [⟨"Mon", "10:00", "14:00"⟩, ⟨"Wed", "10:00", "14:00"⟩, ⟨"Fri", "10:00", "14:00"⟩]⟩
      ⟨"Mon", "10:00", "14:00"⟩ (by decide) (by decide) (by decide)).2 (by decide)⟩

/-- C9: the booking check consults only the first availability entry whose
day matches the weekday of the date; when the time lies outside that first
window, the request is rejected citing the first window even when a later
window of the same day contains the time. -/
theorem claim_C9 (db : DB) (did dn sv un ue dt tm : Option String)
    (doctor : Doctor) (w1 w2 : Slot)
    (hmf : missingFields did un ue dt tm = false)
    (hd : db.doctors.find? (fun d => some d.id == did) = some doctor)
    (hfirst : doctor.availability.find?
        (fun s => s.day == weekdayShort (dt.getD "")) = some w1)
    (hw2 : w2 ∈ doctor.availability)
    (hday2 : w2.day = weekdayShort (dt.getD ""))
    (hin2 : (strLe w2.startTime (tm.getD "") && strLe (tm.getD "") w2.endTime) = true)
    (hout1 : (strLe w1.startTime (tm.getD "") && strLe (tm.getD "") w1.endTime) = false) :
    bookAppointment db did dn sv un ue dt tm =
      ({ status := 400,
         message := "Doctor is available on " ++ weekdayShort (dt.getD "")
           ++ " only between " ++ w1.startTime ++ " and " ++ w1.endTime }, db) :=
  book_badTime db did dn sv un ue dt tm doctor w1 hmf hd hfirst hout1

/-- A doctor with two Monday windows, used by the C9 witness. -/
def drTwoWindows : Doctor :=
  { id := "doc6", name := "Dr. Two Windows", specialization := "General",
    service := "General",
    availability := [⟨"Mon", "09:00", "10:00"⟩, ⟨"Mon", "14:00", "18:00"⟩] }

/-- Witness for C9: on Monday 2025-01-06 at 15:00, inside only the second
Monday window of drTwoWindows, booking is rejected citing the first
Monday window 09:00-10:00. -/
theorem claim_C9_witness :
    bookAppointment
        { users := [], doctors := [drTwoWindows], appointments := [], now := 0 }
        (some "doc6") none none (some "Al") (some "a@b.c")
        (some "2025-01-06") (some "15:00") =
      ({ status := 400,
         message := "Doctor is available on Mon only between 09:00 and 10:00" },
       { users := [], doctors := [drTwoWindows], appointments := [], now := 0 }) :=
  claim_C9 { users := [], doctors := [drTwoWindows], appointments := [], now := 0 }
    (some "doc6") none none (some "Al") (some "a@b.c") (some "2025-01-06") (some "15:00")
    drTwoWindows ⟨"Mon", "09:00", "10:00"⟩ ⟨"Mon", "14:00", "18:00"⟩
    (by decide) (by decide) (by decide) (by decide) (by decide) (by decide) (by decide)

end Dental

namespace Dental

/-- C4: SignIn answers 401 exactly when the email is unknown or the
password fails the hash comparison; on success it answers with the stored
name and email, and the user payload never carries anything but those two
fields (in particular never the password). -/
theorem claim_C4 (db : DB) (email password : String) :
    ((signin db email password).status = 401 ↔
      (∀ u ∈ db.users, u.email ≠ email) ∨
      ∃ u, db.users.find? (fun v => v.email == email) = some u ∧
        bcryptCompare password u.password = false) ∧
    (∀ u, db.users.find? (fun v => v.email == email) = some u →
      bcryptCompare password u.password = true →
      signin db email password =
        { status := 200, message := "Sign-in successful",
          user := some (u.name, u.email) }) ∧
    ((signin db email password).user = none ∨
      ∃ u, db.users.find? (fun v => v.email == email) = some u ∧
        (signin db email password).user = some (u.name, u.email)) := by
  cases hf : db.users.find? (fun v => v.email == email) with
  | none =>
      have hs : signin db email password =
          { status := 401, message := "Invalid email or password", user := none } := by
        unfold signin; rw [hf]
      rw [hs]
      exact ⟨⟨fun _ => Or.inl fun u hu => by
                simpa using List.find?_eq_none.mp hf u hu,
              fun _ => rfl⟩,
             ⟨(fun u hu => nomatch hu), Or.inl rfl⟩⟩
  | some u =>
      cases hc : bcryptCompare password u.password with
      | true =>
          have hs : signin db email password =
              { status := 200, message := "Sign-in successful",
                user := some (u.name, u.email) } := by
            unfold signin; simp [hf, hc]
          rw [hs]
          refine ⟨⟨fun h => absurd h (by simp), ?_⟩,
                  ⟨fun v hv _ => by cases hv; rfl,
                   Or.inr ⟨u, rfl, rfl⟩⟩⟩
          rintro (hall | ⟨v, hv, hcmp⟩)
          · have hmem := List.mem_of_find?_eq_some hf
            have hp := List.find?_some hf
            exact absurd (by simpa using hp) (hall u hmem)
          · cases hv
            rw [hc] at hcmp
            cases hcmp
      | false =>
          have hs : signin db email password =
              { status := 401, message := "Invalid email or password", user := none } := by
            unfold signin; simp [hf, hc]
          rw [hs]
          exact ⟨⟨fun _ => Or.inr ⟨u, rfl, hc⟩, fun _ => rfl⟩,
                 ⟨(fun v hv hcv => by cases hv; rw [hc] at hcv; cases hcv),
                  Or.inl rfl⟩⟩

/-- A one-user state for the account witnesses: Al registered with
password pw. -/
def dbOneUser : DB :=
  { users := [⟨"Al", "a@b.c", bcryptHash "pw"⟩], doctors := [],
    appointments := [], now := 0 }

/-- The empty state for the account witnesses. -/
def dbEmpty : DB :=
  { users := [], doctors := [], appointments := [], now := 0 }

/-- Witness for C4 on a one-user database: a wrong password gives 401 and
the right password gives 200 with the stored name and email. -/
theorem claim_C4_witness :
    (signin dbOneUser "a@b.c" "wrong").status = 401 ∧
    signin dbOneUser "a@b.c" "pw" =
      { status := 200, message := "Sign-in successful", user := some ("Al", "a@b.c") } :=
  ⟨(claim_C4 dbOneUser "a@b.c" "wrong").1.mpr
      (Or.inr ⟨⟨"Al", "a@b.c", bcryptHash "pw"⟩, by decide, by decide⟩),
   (claim_C4 dbOneUser "a@b.c" "pw").2.1
      ⟨"Al", "a@b.c", bcryptHash "pw"⟩ (by decide) (by decide)⟩

/-- C5: Register answers 409 and leaves the state unchanged when the email
already exists; otherwise it appends exactly one user whose stored
password is the salted hash (which is never the plaintext) and answers
201; registering the same email twice therefore gives 409 on the second
call, whatever the first call did. -/
theorem claim_C5 (db : DB) (name email password name2 password2 : String) :
    ((∃ u ∈ db.users, u.email = email) →
      register db name email password =
        ({ status := 409, message := "User already exists" }, db)) ∧
    ((∀ u ∈ db.users, u.email ≠ email) →
      register db name email password =
        ({ status := 201, message := "User registered successfully" },
         { db with users := db.users ++
             [{ name := name, email := email, password := bcryptHash password }] })) ∧
    bcryptHash password ≠ password ∧
    (register (register db name email password).2 name2 email password2).1.status = 409 := by
  refine ⟨?_, ?_, ?_, ?_⟩
  · rintro ⟨u, hu, he⟩
    cases hf : db.users.find? (fun v => v.email == email) with
    | none =>
        exact absurd he (by simpa using List.find?_eq_none.mp hf u hu)
    | some v =>
        unfold register
        rw [hf]
  · intro hall
    have hf : db.users.find? (fun v => v.email == email) = none :=
      List.find?_eq_none.mpr (fun v hv => by simpa using hall v hv)
    unfold register
    rw [hf]
  · intro h
    have h2 := congrArg String.length h
    rw [bcryptHash, String.length_append] at h2
    have h7 : ("$2b$10$" : String).length = 7 := rfl
    rw [h7] at h2
    omega
  · cases hf : db.users.find? (fun v => v.email == email) with
    | some v =>
        have h1 : register db name email password =
            ({ status := 409, message := "User already exists" }, db) := by
          unfold register; rw [hf]
        rw [h1]
        unfold register
        rw [hf]
    | none =>
        have h1 : register db name email password =
            ({ status := 201, message := "User registered successfully" },
             { db with users := db.users ++
                 [{ name := name, email := email, password := bcryptHash password }] }) := by
          unfold register; rw [hf]
        rw [h1]
        unfold register
        have h2 : (db.users ++
            [{ name := name, email := email, password := bcryptHash password : User }]).find?
              (fun v => v.email == email) =
            some { name := name, email := email, password := bcryptHash password } := by
          rw [List.find?_append, hf]
          simp
        rw [h2]

/-- Witness for C5: on an empty user collection registering stores the
hashed user and answers 201; on a collection already holding the email
registering answers 409 and changes nothing; the double registration
answers 409. -/
theorem claim_C5_witness :
    register dbEmpty "Al" "a@b.c" "pw" =
      ({ status := 201, message := "User registered successfully" }, dbOneUser) ∧
    register dbOneUser "Bo" "a@b.c" "pw2" =
      ({ status := 409, message := "User already exists" }, dbOneUser) ∧
    (register (register dbEmpty "Al" "a@b.c" "pw").2 "Bo" "a@b.c" "pw2").1.status = 409 :=
  ⟨(claim_C5 dbEmpty "Al" "a@b.c" "pw" "Bo" "pw2").2.1 (by simp [dbEmpty]),
   (claim_C5 dbOneUser "Bo" "a@b.c" "pw2" "Cy" "pw3").1
      ⟨⟨"Al", "a@b.c", bcryptHash "pw"⟩, by simp [dbOneUser], rfl⟩,
   (claim_C5 dbEmpty "Al" "a@b.c" "pw" "Bo" "pw2").2.2.2⟩

end Dental

namespace Dental

/-- `find?` locates the first match: the list splits as a prefix of
non-matching elements, the found element, and a suffix. -/
theorem find?_decomp {p : User → Bool} {l : List User} {u : User}
    (h : l.find? p = some u) :
    ∃ l1 l2, l = l1 ++ u :: l2 ∧ (∀ v ∈ l1, p v = false) ∧ p u = true := by
  induction l with
  | nil => cases h
  | cons x xs ih =>
      by_cases hx : p x
      · rw [List.find?_cons_of_pos _ hx] at h
        cases h
        exact ⟨[], xs, rfl, (fun v hv => nomatch hv), hx⟩
      · rw [List.find?_cons_of_neg _ hx] at h
        obtain ⟨l1, l2, hl, hpre, hu⟩ := ih h
        refine ⟨x :: l1, l2, by rw [hl]; rfl, ?_, hu⟩
        intro v hv
        rcases List.mem_cons.mp hv with hvx | hvl
        · subst hvx; exact Bool.not_eq_true _ ▸ (by simpa using hx)
        · exact hpre v hvl

/-- `updateFirst` rewrites exactly the first matching element and keeps
every other element. -/
theorem updateFirst_decomp (p : User → Bool) (f : User → User)
    (l1 l2 : List User) (u : User)
    (h1 : ∀ v ∈ l1, p v = false) (hu : p u = true) :
    updateFirst p f (l1 ++ u :: l2) = l1 ++ f u :: l2 := by
  induction l1 with
  | nil => simp [updateFirst, hu]
  | cons x xs ih =>
      have hx : p x = false := h1 x (List.mem_cons_self x xs)
      simp only [List.cons_append, updateFirst, hx, Bool.false_eq_true, if_false,
        List.append_eq]
      rw [ih (fun v hv => h1 v (List.mem_cons_of_mem x hv))]

/-- C7: for a supplied email, ResetPassword answers 404 and leaves the
state unchanged when no user has that email, and otherwise overwrites
exactly the first user with that email, replacing only its password by
the new hash — in both deployment variants; additionally the
src/backend/index.js variant answers 400 on a missing email or password,
while the api variant has no such guard and never answers 400 (a missing
email there reaches the undefined-stripped lookup instead). -/
theorem claim_C7 (db : DB) (email password : Option String) :
    ((falsy email || falsy password) = true →
      resetPassword db email password =
        ({ status := 400, message := "Email and password are required" }, db)) ∧
    ((falsy email || falsy password) = false →
      db.users.find? (fun u => some u.email == email) = none →
      resetPassword db email password =
        ({ status := 404, message := "User not found" }, db)) ∧
    (∀ u, (falsy email || falsy password) = false →
      db.users.find? (fun v => some v.email == email) = some u →
      ∃ l1 l2, db.users = l1 ++ u :: l2 ∧
        (∀ v ∈ l1, (some v.email == email) = false) ∧
        resetPassword db email password =
          ({ status := 200, message := "Password reset successfully" },
           { db with users :=
               l1 ++ { u with password := bcryptHash (password.getD "") } :: l2 })) ∧
    (∀ e, email = some e →
      db.users.find? (fun u => u.email == e) = none →
      resetPasswordApi db email password =
        ({ status := 404, message := "User not found" }, db)) ∧
    (∀ e p u, email = some e → password = some p →
      db.users.find? (fun v => v.email == e) = some u →
      ∃ l1 l2, db.users = l1 ++ u :: l2 ∧
        (∀ v ∈ l1, (v.email == e) = false) ∧
        resetPasswordApi db email password =
          ({ status := 200, message := "Password reset successfully" },
           { db with users :=
               l1 ++ { u with password := bcryptHash p } :: l2 })) ∧
    (resetPasswordApi db email password).1.status ≠ 400 := by
  have hmeq : ∀ e : String, (fun u : User => u.email == e) = apiMatch (some e) :=
    fun e => rfl
  refine ⟨?_, ?_, ?_, ?_, ?_, ?_⟩
  · intro hm
    unfold resetPassword
    rw [hm]
    simp
  · intro hm hf
    unfold resetPassword
    rw [hm, hf]
    simp
  · intro u hm hf
    obtain ⟨l1, l2, hl, hpre, hu⟩ := find?_decomp hf
    refine ⟨l1, l2, hl, hpre, ?_⟩
    unfold resetPassword
    rw [hm, hf]
    simp only [Bool.false_eq_true, if_false]
    rw [hl, updateFirst_decomp _ _ l1 l2 u hpre hu]
  · rintro e rfl hf
    rw [hmeq e] at hf
    unfold resetPasswordApi
    rw [hf]
  · rintro e p u rfl rfl hf
    rw [hmeq e] at hf
    obtain ⟨l1, l2, hl, hpre, hu⟩ := find?_decomp hf
    refine ⟨l1, l2, hl, hpre, ?_⟩
    unfold resetPasswordApi
    rw [hf]
    simp only []
    rw [hl, updateFirst_decomp _ _ l1 l2 u hpre hu]
  · unfold resetPasswordApi
    cases hf : db.users.find? (apiMatch email) with
    | none => simp
    | some u =>
        cases password with
        | none => simp
        | some p => simp

/-- Witness for C7: resetting Al with a new password rewrites exactly that
user in both variants; an unknown email gives 404 unchanged in both; a
missing email gives 400 in the index.js variant while the api variant,
which has no guard, never answers 400 on that input. -/
theorem claim_C7_witness :
    (∃ l1 l2, dbOneUser.users = l1 ++ (⟨"Al", "a@b.c", bcryptHash "pw"⟩ : User) :: l2 ∧
      (∀ v ∈ l1, (some v.email == (some "a@b.c" : Option String)) = false) ∧
      resetPassword dbOneUser (some "a@b.c") (some "new") =
        ({ status := 200, message := "Password reset successfully" },
         { dbOneUser with users :=
             l1 ++ (⟨"Al", "a@b.c", bcryptHash "new"⟩ : User) :: l2 })) ∧
    resetPassword dbOneUser (some "zz@b.c") (some "new") =
      ({ status := 404, message := "User not found" }, dbOneUser) ∧
    resetPassword dbOneUser none (some "new") =
      ({ status := 400, message := "Email and password are required" }, dbOneUser) ∧
    resetPasswordApi dbOneUser (some "zz@b.c") (some "new") =
      ({ status := 404, message := "User not found" }, dbOneUser) ∧
    (∃ l1 l2, dbOneUser.users = l1 ++ (⟨"Al", "a@b.c", bcryptHash "pw"⟩ : User) :: l2 ∧
      (∀ v ∈ l1, (v.email == "a@b.c") = false) ∧
      resetPasswordApi dbOneUser (some "a@b.c") (some "new") =
        ({ status := 200, message := "Password reset successfully" },
         { dbOneUser with users :=
             l1 ++ (⟨"Al", "a@b.c", bcryptHash "new"⟩ : User) :: l2 })) ∧
    (resetPasswordApi dbOneUser none (some "new")).1.status ≠ 400 :=
  ⟨(claim_C7 dbOneUser (some "a@b.c") (some "new")).2.2.1
      ⟨"Al", "a@b.c", bcryptHash "pw"⟩ (by decide) (by decide),
   (claim_C7 dbOneUser (some "zz@b.c") (some "new")).2.1 (by decide) (by decide),
   (claim_C7 dbOneUser none (some "new")).1 (by decide),
   (claim_C7 dbOneUser (some "zz@b.c") (some "new")).2.2.2.1 "zz@b.c" rfl (by decide),
   (claim_C7 dbOneUser (some "a@b.c") (some "new")).2.2.2.2.1 "a@b.c" "new"
      ⟨"Al", "a@b.c", bcryptHash "pw"⟩ rfl rfl (by decide),
   (claim_C7 dbOneUser none (some "new")).2.2.2.2.2⟩

/-- C8: seeding is idempotent: with a non-empty doctor collection
`preloadDoctors` is the identity, on an empty collection it installs the
fixed doctor list, and running it twice always equals running it once. -/
theorem claim_C8 (db : DB) :
    (db.doctors ≠ [] → preloadDoctors db = db) ∧
    (db.doctors = [] → preloadDoctors db = { db with doctors := seedDoctors }) ∧
    preloadDoctors (preloadDoctors db) = preloadDoctors db := by
  rcases hd : db.doctors with _ | ⟨d, ds⟩
  · have h1 : preloadDoctors db = { db with doctors := seedDoctors } := by
      unfold preloadDoctors
      rw [hd]
      simp [seedDoctors]
    refine ⟨fun h => absurd rfl h, fun _ => h1, ?_⟩
    rw [h1]
    unfold preloadDoctors
    simp [seedDoctors]
  · have h1 : preloadDoctors db = db := by
      unfold preloadDoctors
      rw [hd]
      simp
    exact ⟨fun _ => h1, (fun h => nomatch h), by rw [h1, h1]⟩

/-- Witness for C8: seeding the empty state installs the doctor list,
seeding the seeded state changes nothing, and the double seed equals the
single seed. -/
theorem claim_C8_witness :
    preloadDoctors dbEmpty = { dbEmpty with doctors := seedDoctors } ∧
    preloadDoctors dbEx = dbEx ∧
    preloadDoctors (preloadDoctors dbEmpty) = preloadDoctors dbEmpty :=
  ⟨(claim_C8 dbEmpty).2.1 (by decide),
   (claim_C8 dbEx).1 (by decide),
   (claim_C8 dbEmpty).2.2⟩

end Dental

namespace Dental

/-- A 201 answer of the booking handler appends exactly the new document,
stamped with the current clock, and ticks the clock. -/
theorem book_201 (db : DB) (did dn sv un ue dt tm : Option String)
    (h : (bookAppointment db did dn sv un ue dt tm).1.status = 201) :
    (bookAppointment db did dn sv un ue dt tm).2.appointments =
      db.appointments ++ [mkAppointment did dn sv un ue dt tm db.now] ∧
    (bookAppointment db did dn sv un ue dt tm).2.now = db.now + 1 := by
  rcases book_cases db did dn sv un ue dt tm with ⟨hne, _⟩ |
    ⟨_, _, _, _, _, _, _, _, hdb⟩
  · exact absurd h hne
  · rw [hdb]
    exact ⟨rfl, rfl⟩

/-- The clock stamp of the inserted appointment document. -/
theorem mkAppointment_createdAt (a b c d e f g : Option String) (n : Nat) :
    (mkAppointment a b c d e f g n).createdAt = n := rfl

/-- Sorting three appointments with strictly increasing creation stamps by
descending creation stamp reverses them. -/
theorem insertionSort_three (b1 b2 b3 : Appointment)
    (h12 : b1.createdAt < b2.createdAt) (h23 : b2.createdAt < b3.createdAt) :
    List.insertionSort byCreatedDesc [b1, b2, b3] = [b3, b2, b1] := by
  have h13 := Nat.lt_trans h12 h23
  simp [List.insertionSort, List.orderedInsert, byCreatedDesc,
    Nat.not_le.mpr h12, Nat.not_le.mpr h23, Nat.not_le.mpr h13]

/-- C6: ListAppointments returns a permutation of the stored appointments
sorted by creation stamp descending; after three successful bookings from
an empty collection, with creation stamps T1 < T2 < T3, it returns the
third, second and first booking in that order. -/
theorem claim_C6 (db0 : DB) (h0 : db0.appointments = [])
    (did1 dn1 sv1 un1 ue1 dt1 tm1 : Option String)
    (did2 dn2 sv2 un2 ue2 dt2 tm2 : Option String)
    (did3 dn3 sv3 un3 ue3 dt3 tm3 : Option String)
    (h1 : (bookAppointment db0 did1 dn1 sv1 un1 ue1 dt1 tm1).1.status = 201)
    (h2 : (bookAppointment (bookAppointment db0 did1 dn1 sv1 un1 ue1 dt1 tm1).2
      did2 dn2 sv2 un2 ue2 dt2 tm2).1.status = 201)
    (h3 : (bookAppointment (bookAppointment
      (bookAppointment db0 did1 dn1 sv1 un1 ue1 dt1 tm1).2
      did2 dn2 sv2 un2 ue2 dt2 tm2).2 did3 dn3 sv3 un3 ue3 dt3 tm3).1.status = 201) :
    (∀ db : DB, (listAppointments db).Perm db.appointments ∧
      List.Sorted byCreatedDesc (listAppointments db)) ∧
    ∃ b1 b2 b3 : Appointment,
      b1.createdAt < b2.createdAt ∧ b2.createdAt < b3.createdAt ∧
      (bookAppointment (bookAppointment
        (bookAppointment db0 did1 dn1 sv1 un1 ue1 dt1 tm1).2
        did2 dn2 sv2 un2 ue2 dt2 tm2).2 did3 dn3 sv3 un3 ue3 dt3 tm3).2.appointments =
        [b1, b2, b3] ∧
      listAppointments (bookAppointment (bookAppointment
        (bookAppointment db0 did1 dn1 sv1 un1 ue1 dt1 tm1).2
        did2 dn2 sv2 un2 ue2 dt2 tm2).2 did3 dn3 sv3 un3 ue3 dt3 tm3).2 =
        [b3, b2, b1] := by
  refine ⟨fun db => ⟨List.perm_insertionSort _ _, List.sorted_insertionSort _ _⟩, ?_⟩
  obtain ⟨e1, n1⟩ := book_201 db0 did1 dn1 sv1 un1 ue1 dt1 tm1 h1
  obtain ⟨e2, n2⟩ := book_201 _ did2 dn2 sv2 un2 ue2 dt2 tm2 h2
  obtain ⟨e3, _⟩ := book_201 _ did3 dn3 sv3 un3 ue3 dt3 tm3 h3
  rw [h0] at e1
  simp only [List.nil_append] at e1
  rw [e1, n1] at e2
  rw [e2, n2, n1] at e3
  refine ⟨mkAppointment did1 dn1 sv1 un1 ue1 dt1 tm1 db0.now,
          mkAppointment did2 dn2 sv2 un2 ue2 dt2 tm2 (db0.now + 1),
          mkAppointment did3 dn3 sv3 un3 ue3 dt3 tm3 (db0.now + 1 + 1),
          ?_, ?_, ?_, ?_⟩
  · rw [mkAppointment_createdAt, mkAppointment_createdAt]; omega
  · rw [mkAppointment_createdAt, mkAppointment_createdAt]; omega
  · rw [e3]; rfl
  · rw [listAppointments, e3]
    have hr : ([mkAppointment did1 dn1 sv1 un1 ue1 dt1 tm1 db0.now] ++
        [mkAppointment did2 dn2 sv2 un2 ue2 dt2 tm2 (db0.now + 1)]) ++
        [mkAppointment did3 dn3 sv3 un3 ue3 dt3 tm3 (db0.now + 1 + 1)] =
        [mkAppointment did1 dn1 sv1 un1 ue1 dt1 tm1 db0.now,
         mkAppointment did2 dn2 sv2 un2 ue2 dt2 tm2 (db0.now + 1),
         mkAppointment did3 dn3 sv3 un3 ue3 dt3 tm3 (db0.now + 1 + 1)] := rfl
    rw [hr]
    exact insertionSort_three _ _ _
      (by rw [mkAppointment_createdAt, mkAppointment_createdAt]; omega)
      (by rw [mkAppointment_createdAt, mkAppointment_createdAt]; omega)

end Dental

namespace Dental

/-- The state after three successful bookings of doc1 on Monday
2025-01-06 at 10:00, 11:00 and 12:00, used by the C6 witness. -/
def dbThreeBookings : DB :=
  (bookAppointment (bookAppointment (bookAppointment dbEx
    (some "doc1") none none (some "Al") (some "a@b.c") (some "2025-01-06") (some "10:00")).2
    (some "doc1") none none (some "Bo") (some "b@b.c") (some "2025-01-06") (some "11:00")).2
    (some "doc1") none none (some "Cy") (some "c@b.c") (some "2025-01-06") (some "12:00")).2

/-- Witness for C6: after the three concrete bookings the listing returns
the third, second and first booking in that order. -/
theorem claim_C6_witness :
    listAppointments dbThreeBookings =
      [⟨"doc1", "", "", "Cy", "c@b.c", "2025-01-06", "12:00", 2⟩,
       ⟨"doc1", "", "", "Bo", "b@b.c", "2025-01-06", "11:00", 1⟩,
       ⟨"doc1", "", "", "Al", "a@b.c", "2025-01-06", "10:00", 0⟩] := by
  obtain ⟨-, b1, b2, b3, -, -, he, hl⟩ := claim_C6 dbEx rfl
    (some "doc1") none none (some "Al") (some "a@b.c") (some "2025-01-06") (some "10:00")
    (some "doc1") none none (some "Bo") (some "b@b.c") (some "2025-01-06") (some "11:00")
    (some "doc1") none none (some "Cy") (some "c@b.c") (some "2025-01-06") (some "12:00")
    (by decide) (by decide) (by decide)
  have hcalc : dbThreeBookings.appointments =
      [⟨"doc1", "", "", "Al", "a@b.c", "2025-01-06", "10:00", 0⟩,
       ⟨"doc1", "", "", "Bo", "b@b.c", "2025-01-06", "11:00", 1⟩,
       ⟨"doc1", "", "", "Cy", "c@b.c", "2025-01-06", "12:00", 2⟩] := by decide
  have hx : ([⟨"doc1", "", "", "Al", "a@b.c", "2025-01-06", "10:00", 0⟩,
       ⟨"doc1", "", "", "Bo", "b@b.c", "2025-01-06", "11:00", 1⟩,
       ⟨"doc1", "", "", "Cy", "c@b.c", "2025-01-06", "12:00", 2⟩] :
         List Appointment) = [b1, b2, b3] := by
    rw [← hcalc]
    exact he
  injection hx with hb1 hx2
  injection hx2 with hb2 hx3
  injection hx3 with hb3 hx4
  rw [← hb1, ← hb2, ← hb3] at hl
  exact hl

end Dental

namespace Dental

/-- The invariant of the appointment collection: pairwise distinct
(doctorId, date, time) triples. -/
def SlotUnique (l : List Appointment) : Prop :=
  l.Pairwise (fun a b => ¬(a.doctorId = b.doctorId ∧ a.date = b.date ∧ a.time = b.time))

/-- Number of stored appointments in the given (doctorId, date, time)
slot, for request-level field values. -/
def countSlot (l : List Appointment) (did dt tm : Option String) : Nat :=
  (l.filter (fun a =>
    some a.doctorId == did && some a.date == dt && some a.time == tm)).length

/-- A field that passes the truthiness guard is present. -/
theorem falsy_false {x : Option String} (h : falsy x = false) : ∃ s, x = some s := by
  cases x with
  | none => cases h
  | some s => exact ⟨s, rfl⟩

/-- When the required-fields guard passes, doctorId, date and time are all
present. -/
theorem missingFields_false {did un ue dt tm : Option String}
    (h : missingFields did un ue dt tm = false) :
    (∃ s, did = some s) ∧ (∃ s, dt = some s) ∧ (∃ s, tm = some s) := by
  simp only [missingFields, Bool.or_eq_false_iff] at h
  exact ⟨falsy_false h.1.1.1.1, falsy_false h.1.2, falsy_false h.2⟩

/-- The inserted appointment document matches the duplicate-slot predicate
of its own booking request. -/
theorem mkAppointment_selfMatch (did dn sv un ue dt tm : Option String) (n : Nat)
    (hdid : ∃ s, did = some s) (hdt : ∃ s, dt = some s) (htm : ∃ s, tm = some s) :
    (some (mkAppointment did dn sv un ue dt tm n).doctorId == did &&
      some (mkAppointment did dn sv un ue dt tm n).date == dt &&
      some (mkAppointment did dn sv un ue dt tm n).time == tm) = true := by
  obtain ⟨s1, rfl⟩ := hdid
  obtain ⟨s2, rfl⟩ := hdt
  obtain ⟨s3, rfl⟩ := htm
  simp [mkAppointment]

/-- `POST /register` never touches the appointment collection. -/
theorem register_appointments (db : DB) (name email password : String) :
    (register db name email password).2.appointments = db.appointments := by
  unfold register
  cases hf : db.users.find? (fun u => u.email == email) <;> rfl

/-- `POST /resetpassword` (index.js variant) never touches the appointment
collection. -/
theorem resetPassword_appointments (db : DB) (email password : Option String) :
    (resetPassword db email password).2.appointments = db.appointments := by
  unfold resetPassword
  split
  · rfl
  · cases hf : db.users.find? (fun u => some u.email == email) <;> rfl

/-- `POST /resetpassword` (api variant) never touches the appointment
collection. -/
theorem resetPasswordApi_appointments (db : DB) (email password : Option String) :
    (resetPasswordApi db email password).2.appointments = db.appointments := by
  unfold resetPasswordApi
  cases hf : db.users.find? (apiMatch email) with
  | none => rfl
  | some u => cases password <;> rfl

/-- Seeding never touches the appointment collection. -/
theorem preloadDoctors_appointments (db : DB) :
    (preloadDoctors db).appointments = db.appointments := by
  unfold preloadDoctors
  split <;> rfl

end Dental

namespace Dental

/-- C1: slot uniqueness is an invariant.  BookAppointment preserves
pairwise-distinct (doctorId, date, time) triples, inserting only after the
duplicate lookup found nothing; no other write path touches the
appointment collection; and after a successful booking the same slot held
zero records before, holds exactly one record after, and booking it again
answers 409 leaving the state unchanged. -/
theorem claim_C1 (db : DB) (did dn sv un ue dt tm : Option String)
    (name email password : String) (email2 password2 : Option String) :
    (SlotUnique db.appointments →
      SlotUnique (bookAppointment db did dn sv un ue dt tm).2.appointments) ∧
    (register db name email password).2.appointments = db.appointments ∧
    (resetPassword db email2 password2).2.appointments = db.appointments ∧
    (resetPasswordApi db email2 password2).2.appointments = db.appointments ∧
    (preloadDoctors db).appointments = db.appointments ∧
    ((bookAppointment db did dn sv un ue dt tm).1.status = 201 →
      countSlot db.appointments did dt tm = 0 ∧
      countSlot (bookAppointment db did dn sv un ue dt tm).2.appointments did dt tm = 1 ∧
      bookAppointment (bookAppointment db did dn sv un ue dt tm).2
          did dn sv un ue dt tm =
        ({ status := 409, message := "Doctor already has an appointment at this time" },
         (bookAppointment db did dn sv un ue dt tm).2)) := by
  refine ⟨?_, register_appointments db name email password,
    resetPassword_appointments db email2 password2,
    resetPasswordApi_appointments db email2 password2,
    preloadDoctors_appointments db, ?_⟩
  all_goals
    rcases book_cases db did dn sv un ue dt tm with ⟨hne, hdb⟩ |
      ⟨h201, hmf, doctor, slot, hd, hs, ht, he, hdb⟩
  · intro hu
    rw [hdb]
    exact hu
  · intro hu
    rw [hdb]
    obtain ⟨hdid, hdt, htm⟩ := missingFields_false hmf
    have hpredx := mkAppointment_selfMatch did dn sv un ue dt tm db.now hdid hdt htm
    rw [SlotUnique, List.pairwise_append]
    refine ⟨hu, List.pairwise_singleton _ _, ?_⟩
    intro a ha b hb
    rw [List.mem_singleton] at hb
    subst hb
    rintro ⟨q1, q2, q3⟩
    have hfa := List.find?_eq_none.mp he a ha
    rw [q1, q2, q3] at hfa
    exact hfa hpredx
  · intro h
    exact absurd h hne
  · intro _
    obtain ⟨hdid, hdt, htm⟩ := missingFields_false hmf
    have hpredx := mkAppointment_selfMatch did dn sv un ue dt tm db.now hdid hdt htm
    have hzero : countSlot db.appointments did dt tm = 0 := by
      rw [countSlot]
      have : db.appointments.filter (fun a =>
          some a.doctorId == did && some a.date == dt && some a.time == tm) = [] := by
        rw [List.filter_eq_nil]
        exact List.find?_eq_none.mp he
      rw [this]
      rfl
    have hfind : (db.appointments ++
        [mkAppointment did dn sv un ue dt tm db.now]).find? (fun a =>
          some a.doctorId == did && some a.date == dt && some a.time == tm) =
        some (mkAppointment did dn sv un ue dt tm db.now) := by
      rw [List.find?_append, he]
      simp [List.find?_cons, hpredx]
    refine ⟨hzero, ?_, ?_⟩
    · rw [hdb, countSlot, List.filter_append]
      have h1 : db.appointments.filter (fun a =>
          some a.doctorId == did && some a.date == dt && some a.time == tm) = [] := by
        rw [List.filter_eq_nil]
        exact List.find?_eq_none.mp he
      rw [h1]
      simp [hpredx]
    · rw [hdb]
      exact book_dup _ did dn sv un ue dt tm doctor slot
        (mkAppointment did dn sv un ue dt tm db.now) hmf hd hs ht hfind

end Dental

namespace Dental

/-- Witness for C1 on the seeded state: the first booking of the
Monday-11:00 slot of doc1 preserves slot uniqueness, raises the slot count
from zero to one, the identical second booking answers 409 without any
state change, and registration does not touch the appointment
collection. -/
theorem claim_C1_witness :
    SlotUnique (bookAppointment dbEx (some "doc1") none none (some "Al") (some "a@b.c")
      (some "2025-01-06") (some "11:00")).2.appointments ∧
    countSlot dbEx.appointments (some "doc1") (some "2025-01-06") (some "11:00") = 0 ∧
    countSlot (bookAppointment dbEx (some "doc1") none none (some "Al") (some "a@b.c")
        (some "2025-01-06") (some "11:00")).2.appointments
      (some "doc1") (some "2025-01-06") (some "11:00") = 1 ∧
    bookAppointment (bookAppointment dbEx (some "doc1") none none (some "Al")
        (some "a@b.c") (some "2025-01-06") (some "11:00")).2
        (some "doc1") none none (some "Al") (some "a@b.c")
        (some "2025-01-06") (some "11:00") =
      ({ status := 409, message := "Doctor already has an appointment at this time" },
       (bookAppointment dbEx (some "doc1") none none (some "Al") (some "a@b.c")
         (some "2025-01-06") (some "11:00")).2) ∧
    (register dbEx "Al" "a@b.c" "pw").2.appointments = dbEx.appointments :=
  ⟨(claim_C1 dbEx (some "doc1") none none (some "Al") (some "a@b.c") (some "2025-01-06")
      (some "11:00") "Al" "a@b.c" "pw" (some "a@b.c") (some "new")).1 List.Pairwise.nil,
   ((claim_C1 dbEx (some "doc1") none none (some "Al") (some "a@b.c") (some "2025-01-06")
      (some "11:00") "Al" "a@b.c" "pw" (some "a@b.c") (some "new")).2.2.2.2.2
      (by decide)).1,
   ((claim_C1 dbEx (some "doc1") none none (some "Al") (some "a@b.c") (some "2025-01-06")
      (some "11:00") "Al" "a@b.c" "pw" (some "a@b.c") (some "new")).2.2.2.2.2
      (by decide)).2.1,
   ((claim_C1 dbEx (some "doc1") none none (some "Al") (some "a@b.c") (some "2025-01-06")
      (some "11:00") "Al" "a@b.c" "pw" (some "a@b.c") (some "new")).2.2.2.2.2
      (by decide)).2.2,
   (claim_C1 dbEx (some "doc1") none none (some "Al") (some "a@b.c") (some "2025-01-06")
      (some "11:00") "Al" "a@b.c" "pw" (some "a@b.c") (some "new")).2.1⟩

end Dental
